import Mathlib

/-!
Verification of the real-estate analysis pipeline.

Shallow embedding of the ingestion / filtering / aggregation pipeline of the
real-estate chatbot backend (`api/utils/data_processor.py`,
`api/serializers/real_estate.py`, `api/views.py`) together with proofs of the
spec claims about it.  Strings are modelled as Lean `String`s, Python floats as
`Option ℚ` (with `none` playing the role of `NaN`/missing), and Python's
partial operations as `Option`/`Except`.
-/

namespace RealEstate

/-! Python string primitives (CPython semantics, ASCII range) -/

/-- Python `str.lower()` (ASCII letters, which is all the data contains). -/
def strLower (s : String) : String := ⟨s.data.map Char.toLower⟩

/-- The characters Python's `str.strip()` / `str.split()` / regex `\s` treat as
whitespace (ASCII range). -/
def isPyWs (c : Char) : Bool :=
  c = ' ' || c = '\t' || c = '\n' || c = '\r' || c = '\x0b' || c = '\x0c'

/-- Python `str.strip()`: drop leading and trailing whitespace. -/
def pyStripChars (l : List Char) : List Char :=
  ((l.dropWhile isPyWs).reverse.dropWhile isPyWs).reverse

/-- Python `str.split(sep)` for a one-character separator: keeps empty pieces,
`"".split(sep) = [""]`. -/
def splitOnChar (sep : Char) : List Char → List (List Char)
  | [] => [[]]
  | c :: rest =>
    if c = sep then [] :: splitOnChar sep rest
    else
      match splitOnChar sep rest with
      | [] => [[c]]
      | h :: t => (c :: h) :: t

/-- Helper for `splitWsChars`: `acc` is the current token, reversed. -/
def splitWsAux : List Char → List Char → List (List Char)
  | [], acc => if acc = [] then [] else [acc.reverse]
  | c :: rest, acc =>
    if isPyWs c then
      if acc = [] then splitWsAux rest [] else acc.reverse :: splitWsAux rest []
    else splitWsAux rest (c :: acc)

/-- Python `str.split()` with no separator: split on whitespace runs and
discard empty pieces. -/
def splitWsChars (l : List Char) : List (List Char) := splitWsAux l []

/-- A valid Python integer-literal digit run: digits with single underscores
allowed strictly between digits. -/
def pyDigitsValid : List Char → Bool
  | [] => false
  | [c] => c.isDigit
  | c :: c2 :: rest =>
    c.isDigit && (if c2 = '_' then pyDigitsValid rest else pyDigitsValid (c2 :: rest))

/-- Numeric value of a digit run (underscores already removed). -/
def digitsToNat (l : List Char) : Nat := l.foldl (fun acc c => acc * 10 + (c.toNat - 48)) 0

/-- Python `int(str)`: strip whitespace, optional sign, digit run;
`none` models the `ValueError`. -/
def pyIntOfChars (l0 : List Char) : Option Int :=
  let l := pyStripChars l0
  match l with
  | '+' :: rest =>
    if pyDigitsValid rest then some (digitsToNat (rest.filter (· ≠ '_'))) else none
  | '-' :: rest =>
    if pyDigitsValid rest then some (-(digitsToNat (rest.filter (· ≠ '_')) : Int)) else none
  | _ => if pyDigitsValid l then some (digitsToNat (l.filter (· ≠ '_'))) else none

def pyInt (s : String) : Option Int := pyIntOfChars s.data

/-- Python's `needle in hay` substring test, on character lists. -/
def listContainsSub (needle : List Char) : List Char → Bool
  | [] => needle.isEmpty
  | c :: rest => needle.isPrefixOf (c :: rest) || listContainsSub needle rest

/-- Python's `needle in hay` substring test. -/
def strContains (hay needle : String) : Bool := listContainsSub needle.data hay.data

/-- `re.findall(r'(\d{4})', s)` followed by `int(...)`: the values of all
non-overlapping runs of exactly four digits, scanning left to right. -/
def fourDigitRuns : List Char → List Nat
  | c1 :: c2 :: c3 :: c4 :: rest =>
    if c1.isDigit && c2.isDigit && c3.isDigit && c4.isDigit then
      digitsToNat [c1, c2, c3, c4] :: fourDigitRuns rest
    else fourDigitRuns (c2 :: c3 :: c4 :: rest)
  | _ => []

/-- One attempt of `re.search(r'(\d{4})\s*-\s*(\d{4})', q)` anchored at the
head of the list; returns the two captured digit groups. -/
def matchYearPairAt : List Char → Option (List Char × List Char)
  | c1 :: c2 :: c3 :: c4 :: rest =>
    if c1.isDigit && c2.isDigit && c3.isDigit && c4.isDigit then
      match rest.dropWhile isPyWs with
      | '-' :: rest3 =>
        match rest3.dropWhile isPyWs with
        | d1 :: d2 :: d3 :: d4 :: _ =>
          if d1.isDigit && d2.isDigit && d3.isDigit && d4.isDigit then
            some ([c1, c2, c3, c4], [d1, d2, d3, d4])
          else none
        | _ => none
      | _ => none
    else none
  | _ => none

/-- `re.search(r'(\d{4})\s*-\s*(\d{4})', q)`: first match scanning left to
right. -/
def searchYearPair : List Char → Option (List Char × List Char)
  | [] => none
  | c :: rest =>
    match matchYearPairAt (c :: rest) with
    | some p => some p
    | none => searchYearPair rest

/-- One attempt of `re.search(r'last\s+(\d+)\s+years?', q)` anchored at the
head (the caller has already lowercased `q`); returns the captured digit
group. -/
def matchLastAt : List Char → Option (List Char)
  | 'l' :: 'a' :: 's' :: 't' :: rest =>
    match rest.takeWhile isPyWs, rest.dropWhile isPyWs with
    | [], _ => none
    | _ :: _, r1 =>
      let ds := r1.takeWhile Char.isDigit
      let r2 := r1.dropWhile Char.isDigit
      if ds = [] then none
      else
        match r2.takeWhile isPyWs, r2.dropWhile isPyWs with
        | [], _ => none
        | _ :: _, r3 =>
          match r3 with
          | 'y' :: 'e' :: 'a' :: 'r' :: _ => some ds
          | _ => none
  | _ => none

/-- `re.search(r'last\s+(\d+)\s+years?', q)`: first match scanning left to
right. -/
def searchLastYears : List Char → Option (List Char)
  | [] => none
  | c :: rest =>
    match matchLastAt (c :: rest) with
    | some d => some d
    | none => searchLastYears rest

/-! Cell values and numeric cleaning -/

/-- Values a raw cell can hold: a string, a number, or missing
(`NaN`/`None`). -/
inductive PyVal where
  | str (s : String)
  | num (q : ℚ)
  | nan
deriving DecidableEq

/-- `RealEstateDataProcessor._clean_numeric_value` (`data_processor.py`
lines 135-141): on strings, remove every `','` and `'₹'`, strip whitespace,
and turn `''` / `'na'` (case-insensitive) into missing; non-string values pass
through unchanged. -/
def cleanNumericValue (v : PyVal) : PyVal :=
  match v with
  | .str s =>
    let s' : List Char := pyStripChars (s.data.filter (fun c => c != ',' && c != '₹'))
    if s' = [] ∨ s'.map Char.toLower = "na".data then .nan else .str ⟨s'⟩
  | v => v

/-- Decimal-literal parsing as done by `pd.to_numeric`: optional sign, digits,
optional fractional part (scientific notation does not occur in this dataset
and is not modelled). -/
def parseDecCore (l : List Char) : Option ℚ :=
  let intPart := l.takeWhile Char.isDigit
  let rest := l.dropWhile Char.isDigit
  match rest with
  | [] => if intPart.isEmpty then none else some (digitsToNat intPart)
  | '.' :: frac =>
    if frac.all Char.isDigit && (!intPart.isEmpty || !frac.isEmpty) then
      some ((digitsToNat intPart : ℚ) + (digitsToNat frac : ℚ) / ((10 : ℚ) ^ frac.length))
    else none
  | _ => none

def parseDecChars : List Char → Option ℚ
  | '+' :: rest => parseDecCore rest
  | '-' :: rest => (parseDecCore rest).map (fun q => -q)
  | l => parseDecCore l

/-- `pd.to_numeric(value, errors='coerce')` on one cell: numbers pass through,
parseable strings are parsed, everything else becomes missing (`NaN`). -/
def toNumericVal (v : PyVal) : Option ℚ :=
  match v with
  | .num q => some q
  | .nan => none
  | .str s => parseDecChars (pyStripChars s.data)

/-! Canonical data model (one row per location-year observation) -/

/-- A canonical row after normalization: `final_location`, `city` and `year`
are mandatory; the numeric columns live in the `num` association list, with
`none` modelling `NaN`. -/
structure Row where
  final_location : String
  city : String
  year : Int
  num : List (String × Option ℚ)
deriving DecidableEq

/-- The dataframe: the column list (used by `in df.columns` tests) and the
rows. -/
structure DataFrame where
  cols : List String
  rows : List Row
deriving DecidableEq

/-- `df.loc[row, c]` for a numeric column: missing column or stored `NaN` both
behave as `NaN`. -/
def colVal (r : Row) (c : String) : Option ℚ :=
  match r.num.lookup c with
  | some v => v
  | none => none

/-- The filter dictionary assembled by `RealEstateAnalysisView.process_analysis`:
empty string models an absent/blank entry, as in the view's
`data.get('locality') or ''`. -/
structure Filters where
  locality : String
  year_range : String
  property_type : String
  year_from : Option Int
  year_to : Option Int
deriving DecidableEq

/-! `filter_data` (`data_processor.py` lines 143-199) -/

/-- Locality step: case-insensitive exact match, skipped for falsy values. -/
def applyLocality (locality : String) (rows : List Row) : List Row :=
  if locality = "" then rows
  else rows.filter (fun r => strLower r.final_location == strLower locality)

/-- The `int(year_range.split()[1])` computation of the `last N years` branch;
`none` models `ValueError`/`IndexError`. -/
def lastNumOf (yr : String) : Option Int :=
  match splitWsChars yr.data with
  | _ :: t :: _ => pyIntOfChars t
  | _ => none

/-- `year_range.lower().startswith('last ')`. -/
def startsWithLast (yr : String) : Bool := "last ".data.isPrefixOf (strLower yr).data

/-- The `start_year, end_year = map(int, year_range.split('-'))` computation;
`none` models the caught `ValueError` (wrong piece count or unparseable
piece). -/
def rangeOf (yr : String) : Option (Int × Int) :=
  match (splitOnChar '-' yr.data).map pyIntOfChars with
  | [some a, some b] => some (a, b)
  | _ => none

/-- Year-range step of `filter_data`: `last N` keeps `year >= current_year - N`,
a parseable `A-B` keeps `A <= year <= B`, anything else is a no-op. -/
def applyYearRange (currentYear : Int) (yr : String) (rows : List Row) : List Row :=
  if yr = "" then rows
  else if startsWithLast yr then
    match lastNumOf yr with
    | some n => rows.filter (fun r => decide (r.year ≥ currentYear - n))
    | none => rows
  else if yr.data.contains '-' then
    match rangeOf yr with
    | some (a, b) => rows.filter (fun r => decide (a ≤ r.year) && decide (r.year ≤ b))
    | none => rows
  else rows

/-- Property-type step of `filter_data`: keep rows with
`{property_type.lower()}_sold > 0`, a no-op when the column is absent
(`NaN > 0` is false in pandas, so `none` rows are dropped). -/
def applyPropertyType (cols : List String) (pt : String) (rows : List Row) : List Row :=
  if pt = "" then rows
  else
    let colName := strLower pt ++ "_sold"
    if cols.contains colName then
      rows.filter (fun r =>
        match colVal r colName with
        | some v => decide (v > 0)
        | none => false)
    else rows

/-- `RealEstateDataProcessor.filter_data`: the three steps applied in source
order (locality, year range, property type); `currentYear` stands for
`datetime.now().year`. -/
def filterData (currentYear : Int) (fs : Filters) (df : DataFrame) : DataFrame :=
  { cols := df.cols
    rows := applyPropertyType df.cols fs.property_type
      (applyYearRange currentYear fs.year_range
        (applyLocality fs.locality df.rows)) }

/-! Row-level predicates describing what each filter keeps (used to state that
`filter_data` is conjunctive). -/

def localityPred (locality : String) (r : Row) : Bool :=
  locality == "" || strLower r.final_location == strLower locality

def yearRangePred (currentYear : Int) (yr : String) (r : Row) : Bool :=
  if yr = "" then true
  else if startsWithLast yr then
    match lastNumOf yr with
    | some n => decide (r.year ≥ currentYear - n)
    | none => true
  else if yr.data.contains '-' then
    match rangeOf yr with
    | some (a, b) => decide (a ≤ r.year) && decide (r.year ≤ b)
    | none => true
  else true

def propertyTypePred (cols : List String) (pt : String) (r : Row) : Bool :=
  if pt = "" then true
  else
    let colName := strLower pt ++ "_sold"
    if cols.contains colName then
      match colVal r colName with
      | some v => decide (v > 0)
      | none => false
    else true

/-- A row satisfies all three (independently optional) filters. -/
def rowMatches (currentYear : Int) (cols : List String) (fs : Filters) (r : Row) : Bool :=
  localityPred fs.locality r && yearRangePred currentYear fs.year_range r &&
    propertyTypePred cols fs.property_type r

/-! `AnalysisQuerySerializer` (`serializers/real_estate.py` lines 39-101) -/

/-- The validated request data: `""` models an absent or blank string field,
`none` an absent integer field. -/
structure QueryInput where
  query : String
  locality : String
  year_from : Option Int
  year_to : Option Int
  property_type : String
deriving DecidableEq

/-- Python truthiness of an optional integer (`None` and `0` are falsy). -/
def pyTruthyInt (o : Option Int) : Bool :=
  match o with
  | none => false
  | some n => n != 0

/-- The fallback locality keyword table of `validate`, in insertion order. -/
def localityTable : List (String × String) :=
  [("wakad", "Wakad"), ("aundh", "Aundh"), ("baner", "Baner"), ("hinjewadi", "Hinjewadi")]

/-- Year inference of `validate` (lines 79-85): when either bound is falsy,
collect every 4-digit run of the query; given at least two, overwrite both
bounds with the first and last element of the sorted list. -/
def inferYears (d : QueryInput) : QueryInput :=
  if !pyTruthyInt d.year_from || !pyTruthyInt d.year_to then
    let ys : List Int := (fourDigitRuns d.query.data).map Int.ofNat
    if ys.length ≥ 2 then
      let s := List.insertionSort (· ≤ ·) ys
      { d with year_from := some s.headI, year_to := some (s.getLastD 0) }
    else d
  else d

/-- Locality inference of `validate` (lines 87-99): the first table key that
is a substring of the lowercased query wins. -/
def inferLocality (d : QueryInput) : QueryInput :=
  if d.locality = "" then
    match localityTable.find? (fun kv => strContains (strLower d.query) kv.1) with
    | some kv => { d with locality := kv.2 }
    | none => d
  else d

/-- The validation errors the serializer can produce. -/
inductive VError where
  | yearOrder
  | yearFromRange
  | yearToRange
  | propertyChoice
  | queryBlank
deriving DecidableEq

/-- `AnalysisQuerySerializer.validate` (lines 71-101): the year-order check,
then year inference, then locality inference. -/
def validate (d : QueryInput) : Except VError QueryInput :=
  if pyTruthyInt d.year_from && pyTruthyInt d.year_to &&
      decide (d.year_from.getD 0 > d.year_to.getD 0) then
    .error .yearOrder
  else
    .ok (inferLocality (inferYears d))

/-- `MinValueValidator(2000)` / `MaxValueValidator(2100)` on the year fields. -/
def yearInRange (o : Option Int) : Bool :=
  match o with
  | none => true
  | some n => decide (2000 ≤ n) && decide (n ≤ 2100)

/-- `PROPERTY_COLUMNS` of `RealEstateDataProcessor` (`data_processor.py`
line 51). -/
def PROPERTY_COLUMNS : List String :=
  ["flat", "office", "shop", "others", "commercial", "residential"]

/-- The `property_type` choice list of the serializer (lines 58-69). -/
def PROPERTY_CHOICES : List String :=
  ["flat", "office", "shop", "others", "commercial", "residential"]

/-- Whole-serializer run: the declared field validators, then `validate`. -/
def runSerializer (d : QueryInput) : Except VError QueryInput :=
  if d.query = "" then .error .queryBlank
  else if !yearInRange d.year_from then .error .yearFromRange
  else if !yearInRange d.year_to then .error .yearToRange
  else if d.property_type != "" && !(PROPERTY_CHOICES.contains d.property_type) then
    .error .propertyChoice
  else validate d

/-! Filter inference of `process_query` (`data_processor.py` lines 333-360) -/

/-- First-occurrence-order distinct values (pandas `Series.unique`). -/
def uniqueFirstAux {α : Type} [DecidableEq α] (seen : List α) : List α → List α
  | [] => []
  | s :: rest =>
    if seen.contains s then uniqueFirstAux seen rest
    else s :: uniqueFirstAux (s :: seen) rest

def uniqueFirst {α : Type} [DecidableEq α] (l : List α) : List α := uniqueFirstAux [] l

/-- The filter-extraction section of `process_query`: locality from the
dataset's distinct locations, year range from the two regex patterns, property
type from `PROPERTY_COLUMNS` — each step only when the corresponding entry is
falsy and the query is non-empty. -/
def resolveFilters (df : DataFrame) (query : String) (fs : Filters) : Filters :=
  let fs1 :=
    if fs.locality == "" && query != "" then
      match (uniqueFirst (df.rows.map (·.final_location))).find?
          (fun loc => strContains (strLower query) (strLower loc)) with
      | some loc => { fs with locality := loc }
      | none => fs
    else fs
  let fs2 :=
    if fs1.year_range == "" && query != "" then
      match searchYearPair query.data with
      | some (g1, g2) => { fs1 with year_range := (⟨g1⟩ : String) ++ "-" ++ (⟨g2⟩ : String) }
      | none =>
        match searchLastYears (strLower query).data with
        | some ds => { fs1 with year_range := "last " ++ (⟨ds⟩ : String) }
        | none => fs1
    else fs1
  if fs2.property_type == "" && query != "" then
    match PROPERTY_COLUMNS.find? (fun p => strContains (strLower query) p) with
    | some p => { fs2 with property_type := p }
    | none => fs2
  else fs2

/-! Number formatting (Python `f"{x:,.0f}"`, `round`) -/

/-- Round half-to-even (Python/float formatting and `numpy.round`). -/
def roundHalfEven (q : ℚ) : Int :=
  let f := Int.floor q
  let r := q - f
  if r < 1 / 2 then f
  else if r > 1 / 2 then f + 1
  else if f % 2 = 0 then f else f + 1

/-- `round(x, 2)`. -/
def round2 (q : ℚ) : ℚ := (roundHalfEven (q * 100) : ℚ) / 100

/-- `round(x, 0)`. -/
def round0 (q : ℚ) : ℚ := (roundHalfEven q : ℚ)

/-- Decimal digits of a natural, most significant first. -/
def natDigitChars (n : Nat) : List Char :=
  if h : n < 10 then [Char.ofNat (48 + n)]
  else natDigitChars (n / 10) ++ [Char.ofNat (48 + n % 10)]
termination_by n
decreasing_by exact Nat.div_lt_self (by omega) (by omega)

/-- Insert thousands separators into a reversed digit list. -/
def groupDigitsAux : List Char → List Char
  | a :: b :: c :: d :: rest => a :: b :: c :: ',' :: groupDigitsAux (d :: rest)
  | l => l

/-- A natural number with `,` thousands separators. -/
def withCommas (n : Nat) : List Char := (groupDigitsAux (natDigitChars n).reverse).reverse

/-- Python `f"{x:,.0f}"` on a possibly-NaN float (`f"{nan:,.0f}"` prints
`nan`; a negative value rounding to zero prints `-0`). -/
def fmtComma0 (x : Option ℚ) : String :=
  match x with
  | none => "nan"
  | some q =>
    let n := roundHalfEven q
    if decide (n < 0) || decide (q < 0) then "-" ++ (⟨withCommas n.natAbs⟩ : String)
    else (⟨withCommas n.natAbs⟩ : String)

/-- Python `f"{n}"` for an integer. -/
def intStr (n : Int) : String :=
  if n < 0 then "-" ++ (⟨natDigitChars n.natAbs⟩ : String)
  else (⟨natDigitChars n.natAbs⟩ : String)

/-! Aggregation (`data_processor.py` lines 201-320) -/

/-- `c.endswith('_sold')`. -/
def endsWithSold (c : String) : Bool := "_sold".data.isSuffixOf c.data

/-- pandas `Series.sum` over a column: `NaN` is skipped, the empty sum is 0. -/
def colSum (rows : List Row) (c : String) : ℚ :=
  (rows.map (fun r => (colVal r c).getD 0)).sum

/-- pandas `Series.mean` over a column: `NaN` skipped; all-`NaN` gives
`NaN`. -/
def colMean (rows : List Row) (c : String) : Option ℚ :=
  let vs := rows.filterMap (fun r => colVal r c)
  if vs.length = 0 then none else some (vs.sum / (vs.length : ℚ))

/-- The `*_sold` columns of the dataframe, in column order. -/
def soldColumns (cols : List String) : List String := cols.filter endsWithSold

/-- `df[[col for col in df.columns if col.endswith('_sold')]].sum()`. -/
def propertySums (df : DataFrame) : List (String × ℚ) :=
  (soldColumns df.cols).map (fun c => (c, colSum df.rows c))

/-- `Series.idxmax`: label of the first entry attaining the maximum. -/
def idxmaxAux (best : String) (bq : ℚ) : List (String × ℚ) → String
  | [] => best
  | (c, q) :: rest => if q > bq then idxmaxAux c q rest else idxmaxAux best bq rest

def idxmaxFirst : List (String × ℚ) → String
  | [] => ""
  | (c, q) :: rest => idxmaxAux c q rest

/-- Python `str.replace('_sold', '')`: delete every occurrence, scanning left
to right. -/
def stripSold : List Char → List Char
  | '_' :: 's' :: 'o' :: 'l' :: 'd' :: rest => stripSold rest
  | c :: rest => c :: stripSold rest
  | [] => []

/-- Python `str.title()` (ASCII letters). -/
def pyTitleAux (prevAlpha : Bool) : List Char → List Char
  | [] => []
  | c :: rest =>
    if c.isAlpha then
      (if prevAlpha then c.toLower else c.toUpper) :: pyTitleAux true rest
    else c :: pyTitleAux false rest

/-- `idxmax().replace('_sold', '').replace('_', ' ').title()`. -/
def formatSegment (c : String) : String :=
  ⟨pyTitleAux false ((stripSold c.data).map (fun ch => if ch = '_' then ' ' else ch))⟩

/-- The "Most active segment" value of `generate_summary` (lines 224-228). -/
def topPropertyOf (df : DataFrame) : String :=
  if propertySums df = [] then "N/A" else formatSegment (idxmaxFirst (propertySums df))

/-- `property_sums.sum()`: the units-sold figure of the summary sentence. -/
def unitsSoldOf (df : DataFrame) : ℚ := ((propertySums df).map Prod.snd).sum

/-- Modelled from the spec: "the property category with the largest sold-sum
(ties broken by first-encountered column in a fixed column order)" — the
argmax taken over the per-category sold-count columns only (the
`PROPERTY_COLUMNS` categories), not over every `*_sold` column.  Used to
compare the spec's reading of "Most active segment" against the code's. -/
def specTopPropertyOf (df : DataFrame) : String :=
  let sums := ((PROPERTY_COLUMNS.map (fun p => p ++ "_sold")).filter
    (fun c => df.cols.contains c)).map (fun c => (c, colSum df.rows c))
  if sums = [] then "N/A" else formatSegment (idxmaxFirst sums)

/-- The full canonical column set, in `COLUMN_MAP` order (`data_processor.py`
lines 12-41). -/
def CANONICAL_COLS : List String :=
  ["final_location", "year", "city", "loc_lat", "loc_lng", "total_sales",
   "total_sold", "flat_sold", "office_sold", "others_sold", "shop_sold",
   "commercial_sold", "other_sold", "residential_sold",
   "flat_weighted_avg_rate", "office_weighted_avg_rate",
   "others_weighted_avg_rate", "shop_weighted_avg_rate",
   "flat_prevailing_rate_range", "office_prevailing_rate_range",
   "others_prevailing_rate_range", "shop_prevailing_rate_range",
   "total_units", "total_carpet_area", "flat_total", "shop_total",
   "office_total", "others_total"]

/-- A one-row canonical dataframe in which the aggregate `total_sold` column
(10 units) dominates the per-category sold counts (5 flats, rest 0). -/
def segmentDf : DataFrame :=
  { cols := CANONICAL_COLS
    rows := [{ final_location := "Wakad", city := "Pune", year := 2022
               num := [("total_sales", some 1000), ("total_sold", some 10),
                       ("flat_sold", some 5), ("office_sold", some 0),
                       ("others_sold", some 0), ("shop_sold", some 0),
                       ("commercial_sold", some 0), ("other_sold", some 0),
                       ("residential_sold", some 0)] }] }

/-- `sorted(df['year'].unique())` (also the ascending groupby key order). -/
def sortedYears (rows : List Row) : List Int :=
  List.insertionSort (· ≤ ·) (uniqueFirst (rows.map (·.year)))

/-- `RealEstateDataProcessor.generate_summary` (lines 201-242). -/
def generateSummary (df : DataFrame) : String :=
  if df.rows = [] then "No data available for the specified filters."
  else
    let localities := uniqueFirst (df.rows.map (·.final_location))
    let years := sortedYears df.rows
    let totalSales := colSum df.rows "total_sales"
    let avgFlat := colMean df.rows "flat_weighted_avg_rate"
    let avgOffice := colMean df.rows "office_weighted_avg_rate"
    let avgShop := colMean df.rows "shop_weighted_avg_rate"
    let scopeText :=
      if localities.length = 1 then localities.headI
      else intStr localities.length ++ " localities"
    "Between " ++ intStr years.headI ++ " and " ++ intStr (years.getLastD 0) ++ ", " ++
      scopeText ++ " recorded ₹" ++ fmtComma0 (some totalSales) ++
      " in total sales with " ++ fmtComma0 (some (unitsSoldOf df)) ++
      " units sold. Average prices per sq.ft (Flat/Office/Shop) were ₹" ++
      fmtComma0 avgFlat ++ " / ₹" ++ fmtComma0 avgOffice ++ " / ₹" ++
      fmtComma0 avgShop ++ ". Most active segment: " ++ topPropertyOf df ++ "."

/-- One Chart.js dataset: series label, per-year values (`none` = `NaN`), and
the constant styling entries. -/
structure Dataset where
  label : String
  data : List (Option ℚ)
  style : List (String × String)
deriving DecidableEq

structure ChartData where
  labels : List Int
  datasets : List Dataset
deriving DecidableEq

/-- `RealEstateDataProcessor.prepare_chart_data` (lines 244-284): group by
year (ascending keys), mean flat rate rounded to 2 decimals as a line series,
summed `total_sold` rounded to 0 decimals as a bar series. -/
def prepareChartData (df : DataFrame) : ChartData :=
  if df.rows = [] then { labels := [], datasets := [] }
  else
    let years := sortedYears df.rows
    let groupRows := fun (y : Int) => df.rows.filter (fun r => r.year == y)
    { labels := years
      datasets :=
        [{ label := "Avg Flat Price (₹/sq.ft)"
           data := years.map (fun y =>
             (colMean (groupRows y) "flat_weighted_avg_rate").map round2)
           style := [("borderColor", "rgb(67, 97, 238)"), ("tension", "0.2"),
                     ("yAxisID", "y")] },
         { label := "Total Units Sold"
           data := years.map (fun y => some (round0 (colSum (groupRows y) "total_sold")))
           style := [("type", "bar"), ("backgroundColor", "rgba(230, 57, 70, 0.4)"),
                     ("borderColor", "rgba(230, 57, 70, 1)"), ("yAxisID", "y1")] }] }

/-- One row of the display table after projection, rename and rounding. -/
structure TableRow where
  year : Int
  location : String
  city : String
  totalSales : Option ℚ
  totalSold : Option ℚ
  flatRate : Option ℚ
  officeRate : Option ℚ
  shopRate : Option ℚ
  othersRate : Option ℚ
deriving DecidableEq

/-- `RealEstateDataProcessor.prepare_table_data` (lines 286-320). -/
def prepareTableData (rows : List Row) : List TableRow :=
  rows.map (fun r =>
    { year := r.year
      location := r.final_location
      city := r.city
      totalSales := (colVal r "total_sales").map round2
      totalSold := (colVal r "total_sold").map round2
      flatRate := (colVal r "flat_weighted_avg_rate").map round2
      officeRate := (colVal r "office_weighted_avg_rate").map round2
      shopRate := (colVal r "shop_weighted_avg_rate").map round2
      othersRate := (colVal r "others_weighted_avg_rate").map round2 })

/-! `process_query` and the view pipeline -/

structure AnalysisResult where
  query : String
  summary : String
  chart_data : ChartData
  table_data : List TableRow
  filters : Filters
deriving DecidableEq

/-- `RealEstateDataProcessor.process_query` (lines 322-376): resolve filters
from the query, filter, aggregate. -/
def processQuery (currentYear : Int) (df : DataFrame) (query : String) (fs : Filters) :
    AnalysisResult :=
  let fs' := resolveFilters df query fs
  let filtered := filterData currentYear fs' df
  { query := query
    summary := generateSummary filtered
    chart_data := prepareChartData filtered
    table_data := prepareTableData filtered.rows
    filters := fs' }

/-- The view pipeline (`views.py` lines 41-100): serializer validation first —
a serializer error rejects the request before any filtering — then
`process_analysis` builds the filter dict (`year_range` is never a serializer
field, hence always `''`) and delegates to `process_query`. -/
def processAnalysis (currentYear : Int) (df : DataFrame) (d : QueryInput) :
    Except VError AnalysisResult :=
  match runSerializer d with
  | .error e => .error e
  | .ok v =>
    let fs : Filters :=
      { locality := v.locality, year_range := "", property_type := v.property_type
        year_from := v.year_from, year_to := v.year_to }
    .ok (processQuery currentYear df v.query fs)

/-! Normalization (`_load_from_database` lines 95-102,
`_load_from_external_source` lines 125-133) -/

/-- A raw row before numeric coercion: `final_location`/`city` possibly
missing, all numeric cells raw values. -/
structure RawRow where
  final_location : Option String
  city : Option String
  year : PyVal
  num : List (String × PyVal)
deriving DecidableEq

/-- A row after numeric coercion and the `year` integer cast, before the
drop/sort steps. -/
structure PreRow where
  final_location : Option String
  city : Option String
  year : Int
  num : List (String × Option ℚ)
deriving DecidableEq

/-- `astype(int)` on a float cell: truncation toward zero. -/
def qToInt (q : ℚ) : Int := q.num / (q.den : Int)

/-- External-source coercion of one row: `_clean_numeric_value` plus
`pd.to_numeric(..., errors='coerce')` on the numeric columns, then the fatal
`astype(int)` cast of `year` (`none` = load aborts). -/
def coerceRowExternal (r : RawRow) : Option PreRow :=
  match toNumericVal (cleanNumericValue r.year) with
  | none => none
  | some qy =>
    some { final_location := r.final_location, city := r.city, year := qToInt qy
           num := r.num.map (fun cv => (cv.1, toNumericVal (cleanNumericValue cv.2))) }

/-- Database-path coercion: `pd.to_numeric` without the cleaning step. -/
def coerceRowDb (r : RawRow) : Option PreRow :=
  match toNumericVal r.year with
  | none => none
  | some qy =>
    some { final_location := r.final_location, city := r.city, year := qToInt qy
           num := r.num.map (fun cv => (cv.1, toNumericVal cv.2)) }

/-- `df.dropna(subset=['final_location', 'city'])`. -/
def dropMissing (l : List PreRow) : List Row :=
  l.filterMap (fun r =>
    match r.final_location, r.city with
    | some loc, some city =>
      some { final_location := loc, city := city, year := r.year, num := r.num }
    | _, _ => none)

/-- Code-point lexicographic `<` on character lists (Python string
comparison). -/
def charsLt : List Char → List Char → Bool
  | [], [] => false
  | [], _ :: _ => true
  | _ :: _, [] => false
  | a :: as, b :: bs =>
    if a.toNat < b.toNat then true
    else if b.toNat < a.toNat then false
    else charsLt as bs

def strLtB (s t : String) : Bool := charsLt s.data t.data

/-- Strict `(final_location, year)` key order (string order is code-point
lexicographic, as in Python). -/
def keyLT (a b : Row) : Bool :=
  strLtB a.final_location b.final_location ||
    (a.final_location == b.final_location && decide (a.year < b.year))

/-- Non-strict `(final_location, year)` key order. -/
def keyLE (a b : Row) : Bool :=
  strLtB a.final_location b.final_location ||
    (a.final_location == b.final_location && decide (a.year ≤ b.year))

/-- Comparison used by the stable sort on position-tagged rows: numpy's
`lexsort` compares keys only. -/
def taggedLE (x y : Nat × Row) : Prop := keyLE x.2 y.2 = true

instance : DecidableRel taggedLE := fun _ _ =>
  inferInstanceAs (Decidable (_ = true))

/-- `sort_values(['final_location', 'year'])`: a stable sort, modelled as an
insertion sort over position-tagged rows. -/
def sortTagged (l : List Row) : List (Nat × Row) :=
  List.insertionSort taggedLE l.enum

def sortRows (l : List Row) : List Row := (sortTagged l).map Prod.snd

/-- Shared normalization tail of both loaders: drop rows with missing
`final_location`/`city`, then stable-sort by `(final_location, year)`. -/
def dropSort (l : List PreRow) : List Row := sortRows (dropMissing l)

/-- `_load_from_external_source` row pipeline after header reconciliation. -/
def normalizeExternal (l : List RawRow) : Option (List Row) :=
  (l.mapM coerceRowExternal).map dropSort

/-- `_load_from_database` row pipeline. -/
def normalizeDb (l : List RawRow) : Option (List Row) :=
  (l.mapM coerceRowDb).map dropSort

/-- `x` must precede `y` in a stable `(final_location, year)` sort: strictly
smaller key, or equal keys and smaller original position. -/
def stableBefore (x y : Nat × Row) : Prop :=
  keyLT x.2 y.2 = true ∨
    (x.2.final_location = y.2.final_location ∧ x.2.year = y.2.year ∧ x.1 < y.1)

/-! Theorems -/

theorem applyLocality_eq_filter (locality : String) (rows : List Row) :
    applyLocality locality rows = rows.filter (localityPred locality) := by
  unfold applyLocality localityPred
  by_cases h : locality = ""
  · simp [h]
  · simp only [h, if_false]
    refine (List.filter_congr ?_).symm
    intro r _
    simp [beq_eq_false_iff_ne.mpr h]

theorem applyYearRange_eq_filter (cy : Int) (yr : String) (rows : List Row) :
    applyYearRange cy yr rows = rows.filter (yearRangePred cy yr) := by
  unfold applyYearRange yearRangePred
  by_cases h1 : yr = ""
  · simp [h1]
  · simp only [h1, if_false]
    by_cases h2 : startsWithLast yr = true
    · simp only [h2, if_true]
      cases hn : lastNumOf yr with
      | some n => rfl
      | none => simp
    · simp only [eq_false_of_ne_true h2, Bool.false_eq_true, if_false]
      by_cases h3 : ('-' ∈ yr.data)
      · rw [if_pos (by simpa using h3)]
        cases hr : rangeOf yr with
        | some ab =>
          obtain ⟨a, b⟩ := ab
          refine (List.filter_congr ?_).symm
          intro r _
          rw [if_pos (by simpa using h3)]
        | none =>
          refine Eq.symm (List.filter_eq_self.mpr ?_)
          intro r _
          rw [if_pos (by simpa using h3)]
      · rw [if_neg (by simpa using h3)]
        refine Eq.symm (List.filter_eq_self.mpr ?_)
        intro r _
        rw [if_neg (by simpa using h3)]

theorem applyPropertyType_eq_filter (cols : List String) (pt : String) (rows : List Row) :
    applyPropertyType cols pt rows = rows.filter (propertyTypePred cols pt) := by
  unfold applyPropertyType propertyTypePred
  by_cases h : pt = ""
  · simp [h]
  · simp only [h, if_false]
    by_cases h2 : (strLower pt ++ "_sold" ∈ cols)
    · rw [if_pos (by simpa using h2)]
      apply List.filter_congr
      intro r _
      rw [if_pos (by simpa using h2)]
    · rw [if_neg (by simpa using h2)]
      refine Eq.symm (List.filter_eq_self.mpr ?_)
      intro r _
      rw [if_neg (by simpa using h2)]

/-- `filter_data` equals a single pass keeping exactly the rows that satisfy
all three (independently optional) filters. -/
theorem filterData_rows (cy : Int) (fs : Filters) (df : DataFrame) :
    (filterData cy fs df).rows = df.rows.filter (rowMatches cy df.cols fs) := by
  show applyPropertyType df.cols fs.property_type
      (applyYearRange cy fs.year_range (applyLocality fs.locality df.rows)) =
    df.rows.filter (rowMatches cy df.cols fs)
  rw [applyLocality_eq_filter, applyYearRange_eq_filter, applyPropertyType_eq_filter,
    List.filter_filter, List.filter_filter]
  apply List.filter_congr
  intro r _
  unfold rowMatches
  cases localityPred fs.locality r <;> cases yearRangePred cy fs.year_range r <;>
    cases propertyTypePred df.cols fs.property_type r <;> rfl

/-- Claim C1: `filter_data` is conjunctive with each filter independently optional:
it returns exactly the rows satisfying all present filters (locality as a
case-insensitive exact match, `last N` as `year >= current_year - N`, `A-B`
as `A <= year <= B`, property type as `{pt}_sold > 0` when that column
exists); in particular the filter set
`{locality: "wakad", year_range: "2020-2022"}` keeps exactly the rows whose
lowercased location is `"wakad"` and whose year lies in `[2020, 2022]`. -/
theorem filter_data_conjunctive_spec :
    (∀ (currentYear : Int) (fs : Filters) (df : DataFrame),
      (filterData currentYear fs df).rows =
        df.rows.filter (rowMatches currentYear df.cols fs)) ∧
    (∀ (currentYear : Int) (df : DataFrame),
      (filterData currentYear ⟨"wakad", "2020-2022", "", none, none⟩ df).rows =
        df.rows.filter (fun r =>
          (strLower r.final_location == "wakad") &&
            (decide (2020 ≤ r.year) && decide (r.year ≤ 2022)))) := by
  constructor
  · exact filterData_rows
  · intro cy df
    rw [filterData_rows]
    apply List.filter_congr
    intro r _
    have e1 : localityPred "wakad" r = (strLower r.final_location == "wakad") := rfl
    have e2 : yearRangePred cy "2020-2022" r =
        (decide (2020 ≤ r.year) && decide (r.year ≤ 2022)) := rfl
    have e3 : propertyTypePred df.cols "" r = true := rfl
    unfold rowMatches
    rw [e1, e2, e3, Bool.and_true]

/-- Claim C5: the `year_from` / `year_to` entries of the filter set have no effect
on `filter_data`: two filter sets agreeing on `locality`, `year_range` and
`property_type` produce identical filtered dataframes. -/
theorem year_bounds_do_not_affect_filtering :
    ∀ (currentYear : Int) (df : DataFrame) (loc yr pt : String)
      (yf1 yt1 yf2 yt2 : Option Int),
      filterData currentYear ⟨loc, yr, pt, yf1, yt1⟩ df =
        filterData currentYear ⟨loc, yr, pt, yf2, yt2⟩ df :=
  fun _ _ _ _ _ _ _ _ _ => rfl

/-- Claim C8: a `year_range` string matching neither the `last <N>` form nor a
parseable `A-B` form is a no-op for the year-range filter: the rows pass
through unchanged (the parse failures are caught, never surfaced). -/
theorem malformed_year_range_noop (cy : Int) (yr : String) (rows : List Row)
    (h1 : ¬ (startsWithLast yr = true ∧ (lastNumOf yr).isSome = true))
    (h2 : (rangeOf yr).isSome = false) :
    applyYearRange cy yr rows = rows := by
  unfold applyYearRange
  by_cases he : yr = ""
  · simp [he]
  · simp only [he, if_false]
    by_cases hl : startsWithLast yr = true
    · simp only [hl, if_true]
      cases hn : lastNumOf yr with
      | some n => exact absurd ⟨hl, by rw [hn]; rfl⟩ h1
      | none => rfl
    · simp only [eq_false_of_ne_true hl, Bool.false_eq_true, if_false]
      by_cases hd : ('-' ∈ yr.data)
      · rw [if_pos (by simpa using hd)]
        cases hr : rangeOf yr with
        | some ab => rw [hr] at h2; exact absurd h2 (by simp)
        | none => rfl
      · rw [if_neg (by simpa using hd)]

theorem malformed_year_range_noop_witness :
    (¬ (startsWithLast "last abc" = true ∧ (lastNumOf "last abc").isSome = true)) ∧
    (rangeOf "last abc").isSome = false ∧
    (rangeOf "2020-2021-2022").isSome = false ∧
    applyYearRange 2025 "last abc"
      [⟨"Wakad", "Pune", 2021, []⟩] = [⟨"Wakad", "Pune", 2021, []⟩] ∧
    applyYearRange 2025 "2020-2021-2022"
      [⟨"Wakad", "Pune", 2021, []⟩] = [⟨"Wakad", "Pune", 2021, []⟩] :=
  ⟨by decide, by decide, by decide,
    malformed_year_range_noop 2025 "last abc" _ (by decide) (by decide),
    malformed_year_range_noop 2025 "2020-2021-2022" _ (by decide) (by decide)⟩

theorem inferYears_of_truthy (d : QueryInput) (h1 : pyTruthyInt d.year_from = true)
    (h2 : pyTruthyInt d.year_to = true) : inferYears d = d := by
  unfold inferYears
  simp [h1, h2]

theorem inferYears_preserves (d : QueryInput) :
    (inferYears d).locality = d.locality ∧ (inferYears d).property_type = d.property_type ∧
      (inferYears d).query = d.query := by
  unfold inferYears
  dsimp only
  split_ifs <;> exact ⟨rfl, rfl, rfl⟩

theorem inferLocality_of_set (d : QueryInput) (h : d.locality ≠ "") : inferLocality d = d := by
  unfold inferLocality
  rw [if_neg h]

theorem inferLocality_preserves (d : QueryInput) :
    (inferLocality d).year_from = d.year_from ∧ (inferLocality d).year_to = d.year_to ∧
      (inferLocality d).property_type = d.property_type ∧
      (inferLocality d).query = d.query := by
  unfold inferLocality
  by_cases h : d.locality = ""
  · rw [if_pos h]
    cases localityTable.find? (fun kv => strContains (strLower d.query) kv.1) <;>
      exact ⟨rfl, rfl, rfl, rfl⟩
  · rw [if_neg h]
    exact ⟨rfl, rfl, rfl, rfl⟩

/-- Counterexample to claim C2: with `year_from = 2021` supplied and `year_to` absent,
the serializer's year inference runs anyway and replaces the supplied
`year_from` with the minimum 4-digit value found in the query. -/
theorem validate_overwrites_supplied_year_from :
    validate ⟨"compare 2019 and 2023", "", some 2021, none, ""⟩ =
      .ok ⟨"compare 2019 and 2023", "", some 2019, some 2023, ""⟩ ∧
    (⟨"compare 2019 and 2023", "", some 2019, some 2023, ""⟩ : QueryInput).year_from ≠
      some 2021 :=
  ⟨rfl, by decide⟩

/-- Claim C2 as amended: inference never replaces a supplied value for `locality` and
`property_type`, and never replaces the year bounds when BOTH are supplied;
but when exactly one year bound is supplied, year inference runs and
overwrites both bounds.  In `process_query`'s own filter inference every step,
including the year-range one, applies only when the field is unset. -/
theorem inference_override_precedence_amended :
    (∀ d v : QueryInput, validate d = .ok v →
      (pyTruthyInt d.year_from = true → pyTruthyInt d.year_to = true →
        v.year_from = d.year_from ∧ v.year_to = d.year_to) ∧
      (d.locality ≠ "" → v.locality = d.locality) ∧
      v.property_type = d.property_type ∧ v.query = d.query) ∧
    (∀ (df : DataFrame) (query : String) (fs : Filters),
      (fs.locality ≠ "" → (resolveFilters df query fs).locality = fs.locality) ∧
      (fs.year_range ≠ "" → (resolveFilters df query fs).year_range = fs.year_range) ∧
      (fs.property_type ≠ "" → (resolveFilters df query fs).property_type = fs.property_type) ∧
      (resolveFilters df query fs).year_from = fs.year_from ∧
      (resolveFilters df query fs).year_to = fs.year_to) := by
  constructor
  · intro d v hv
    have hv' : v = inferLocality (inferYears d) := by
      unfold validate at hv
      by_cases hc : (pyTruthyInt d.year_from && pyTruthyInt d.year_to &&
          decide (d.year_from.getD 0 > d.year_to.getD 0)) = true
      · rw [if_pos hc] at hv
        exact absurd hv (by simp)
      · rw [if_neg hc] at hv
        simp only [Except.ok.injEq] at hv
        exact hv.symm
    subst hv'
    refine ⟨?_, ?_, ?_, ?_⟩
    · intro h1 h2
      rw [inferYears_of_truthy d h1 h2]
      exact ⟨(inferLocality_preserves d).1, (inferLocality_preserves d).2.1⟩
    · intro h
      have hl : (inferYears d).locality = d.locality := (inferYears_preserves d).1
      rw [inferLocality_of_set _ (by rw [hl]; exact h), hl]
    · rw [(inferLocality_preserves _).2.2.1, (inferYears_preserves d).2.1]
    · rw [(inferLocality_preserves _).2.2.2, (inferYears_preserves d).2.2]
  · intro df query fs
    unfold resolveFilters
    dsimp only
    repeat' split
    all_goals simp_all

theorem inference_override_precedence_amended_witness :
    pyTruthyInt (some 2020) = true ∧ pyTruthyInt (some 2022) = true ∧
    validate ⟨"compare 2019 and 2023", "Baner", some 2020, some 2022, "shop"⟩ =
      .ok ⟨"compare 2019 and 2023", "Baner", some 2020, some 2022, "shop"⟩ ∧
    (⟨"compare 2019 and 2023", "Baner", some 2020, some 2022, "shop"⟩ :
        QueryInput).year_from = some 2020 ∧
    (resolveFilters ⟨[], []⟩ "flat in wakad 2020-2022"
        ⟨"Baner", "2018-2019", "shop", none, none⟩).year_range = "2018-2019" :=
  ⟨by decide, by decide, rfl,
    ((inference_override_precedence_amended.1
      ⟨"compare 2019 and 2023", "Baner", some 2020, some 2022, "shop"⟩
      ⟨"compare 2019 and 2023", "Baner", some 2020, some 2022, "shop"⟩ rfl).1
        (by decide) (by decide)).1,
    (inference_override_precedence_amended.2 ⟨[], []⟩ "flat in wakad 2020-2022"
      ⟨"Baner", "2018-2019", "shop", none, none⟩).2.1 (by decide)⟩

/-- Claim C4: when both year bounds are explicitly supplied with
`year_from > year_to` the serializer rejects the request (a validation
error), and the rejection happens before any filtering (`process_analysis`
short-circuits); with only one or neither bound supplied the year-order error
is never raised. -/
theorem year_order_validation_rejects :
    (∀ (d : QueryInput) (a b : Int), d.year_from = some a → d.year_to = some b →
      a > b → ∃ e, runSerializer d = .error e) ∧
    (∀ d : QueryInput, d.year_from = none ∨ d.year_to = none →
      runSerializer d ≠ .error .yearOrder) ∧
    (∀ (cy : Int) (df : DataFrame) (d : QueryInput) (e : VError),
      runSerializer d = .error e → processAnalysis cy df d = .error e) := by
  refine ⟨?_, ?_, ?_⟩
  · intro d a b ha hb hab
    unfold runSerializer
    split_ifs with h1 h2 h3 h4
    · exact ⟨_, rfl⟩
    · exact ⟨_, rfl⟩
    · exact ⟨_, rfl⟩
    · exact ⟨_, rfl⟩
    · refine ⟨.yearOrder, ?_⟩
      unfold validate
      rw [ha] at h2
      rw [hb] at h3
      rw [ha, hb]
      have ha2 : 2000 ≤ a ∧ a ≤ 2100 := by simpa [yearInRange] using h2
      have hb2 : 2000 ≤ b ∧ b ≤ 2100 := by simpa [yearInRange] using h3
      obtain ⟨ha2l, -⟩ := ha2
      obtain ⟨hb2l, -⟩ := hb2
      have hcond : (pyTruthyInt (some a) && pyTruthyInt (some b) &&
          decide ((some a).getD 0 > (some b).getD 0)) = true := by
        simp only [pyTruthyInt, Option.getD_some, Bool.and_eq_true, bne_iff_ne,
          decide_eq_true_eq]
        exact ⟨⟨by omega, by omega⟩, hab⟩
      rw [if_pos hcond]
  · intro d hd
    unfold runSerializer
    split_ifs
    · simp
    · simp
    · simp
    · simp
    · unfold validate
      rcases hd with hd | hd <;> rw [hd]
      · simp [pyTruthyInt]
      · simp [pyTruthyInt]
  · intro cy df d e h
    unfold processAnalysis
    rw [h]

theorem year_order_validation_rejects_witness :
    ((⟨"analyze", "", some 2023, some 2020, ""⟩ : QueryInput).year_from = some 2023) ∧
    (2023 : Int) > 2020 ∧
    (∃ e, runSerializer ⟨"analyze", "", some 2023, some 2020, ""⟩ = .error e) ∧
    runSerializer ⟨"analyze", "", some 2023, none, ""⟩ ≠ .error .yearOrder :=
  ⟨rfl, by decide,
    year_order_validation_rejects.1 ⟨"analyze", "", some 2023, some 2020, ""⟩
      2023 2020 rfl rfl (by decide),
    year_order_validation_rejects.2.1 ⟨"analyze", "", some 2023, none, ""⟩ (Or.inr rfl)⟩

theorem sorted_headI_le {l : List Int} (hs : l.Sorted (· ≤ ·)) :
    ∀ y ∈ l, l.headI ≤ y := by
  cases l with
  | nil => intro y hy; cases hy
  | cons a t =>
    intro y hy
    rcases List.mem_cons.mp hy with rfl | hyt
    · exact le_refl _
    · exact (List.sorted_cons.mp hs).1 y hyt

theorem headI_mem_of_ne_nil {l : List Int} (h : l ≠ []) : l.headI ∈ l := by
  cases l with
  | nil => exact absurd rfl h
  | cons a t => exact List.mem_cons_self a t

theorem getLastD_mem : ∀ (l : List Int) (d : Int), l ≠ [] → l.getLastD d ∈ l := by
  intro l
  induction l with
  | nil => intro d h; exact absurd rfl h
  | cons a t ih =>
    intro d _
    rw [List.getLastD_cons]
    cases t with
    | nil => simp [List.getLastD]
    | cons b u => exact List.mem_cons_of_mem a (ih a (by simp))

theorem le_getLastD_of_sorted : ∀ (l : List Int) (d : Int), l.Sorted (· ≤ ·) →
    ∀ y ∈ l, y ≤ l.getLastD d := by
  intro l
  induction l with
  | nil => intro d _ y hy; cases hy
  | cons a t ih =>
    intro d hs y hy
    have hs' := List.sorted_cons.mp hs
    rw [List.getLastD_cons]
    rcases List.mem_cons.mp hy with rfl | hyt
    · cases t with
      | nil => simp [List.getLastD]
      | cons b u => exact hs'.1 _ (getLastD_mem (b :: u) y (by simp))
    · exact ih a hs'.2 y hyt

/-- Claim C6: when both year bounds are unset and the query holds at least two
4-digit runs, `validate` sets `year_from` to the minimum and `year_to` to the
maximum of all 4-digit values found — order-independent; in particular
`"compare 2023 and 2019"` yields `year_from = 2019`, `year_to = 2023`. -/
theorem year_extraction_min_max :
    (∀ d v : QueryInput, d.year_from = none → d.year_to = none →
      2 ≤ (fourDigitRuns d.query.data).length →
      validate d = .ok v →
      ∃ a b : Int, v.year_from = some a ∧ v.year_to = some b ∧
        a ∈ ((fourDigitRuns d.query.data).map Int.ofNat) ∧
        b ∈ ((fourDigitRuns d.query.data).map Int.ofNat) ∧
        ∀ y ∈ ((fourDigitRuns d.query.data).map Int.ofNat), a ≤ y ∧ y ≤ b) ∧
    validate ⟨"compare 2023 and 2019", "", none, none, ""⟩ =
      .ok ⟨"compare 2023 and 2019", "", some 2019, some 2023, ""⟩ := by
  constructor
  · intro d v h1 h2 hlen hv
    have hv' : v = inferLocality (inferYears d) := by
      unfold validate at hv
      rw [if_neg (by rw [h1]; simp [pyTruthyInt])] at hv
      simp only [Except.ok.injEq] at hv
      exact hv.symm
    subst hv'
    have hiy : inferYears d =
        { d with
          year_from :=
            some (List.insertionSort (· ≤ ·)
              ((fourDigitRuns d.query.data).map Int.ofNat)).headI
          year_to :=
            some ((List.insertionSort (· ≤ ·)
              ((fourDigitRuns d.query.data).map Int.ofNat)).getLastD 0) } := by
      unfold inferYears
      rw [if_pos (by rw [h1]; simp [pyTruthyInt])]
      dsimp only
      rw [if_pos (by rw [List.length_map]; exact hlen)]
    have hsort : (List.insertionSort (· ≤ ·)
        ((fourDigitRuns d.query.data).map Int.ofNat)).Sorted (· ≤ ·) :=
      List.sorted_insertionSort _ _
    have hperm : List.Perm
        (List.insertionSort (· ≤ ·) ((fourDigitRuns d.query.data).map Int.ofNat))
        ((fourDigitRuns d.query.data).map Int.ofNat) :=
      List.perm_insertionSort _ _
    have hsne : List.insertionSort (· ≤ ·)
        ((fourDigitRuns d.query.data).map Int.ofNat) ≠ [] := by
      intro hn
      have h2len : (2 : Nat) ≤ (List.insertionSort (· ≤ ·)
          ((fourDigitRuns d.query.data).map Int.ofNat)).length := by
        rw [hperm.length_eq, List.length_map]
        exact hlen
      rw [hn] at h2len
      simp at h2len
    refine ⟨(List.insertionSort (· ≤ ·)
        ((fourDigitRuns d.query.data).map Int.ofNat)).headI,
      (List.insertionSort (· ≤ ·)
        ((fourDigitRuns d.query.data).map Int.ofNat)).getLastD 0,
      ?_, ?_, ?_, ?_, ?_⟩
    · rw [(inferLocality_preserves _).1, hiy]
    · rw [(inferLocality_preserves _).2.1, hiy]
    · exact hperm.mem_iff.mp (headI_mem_of_ne_nil hsne)
    · exact hperm.mem_iff.mp (getLastD_mem _ 0 hsne)
    · intro y hy
      have hy' : y ∈ List.insertionSort (· ≤ ·)
          ((fourDigitRuns d.query.data).map Int.ofNat) := hperm.mem_iff.mpr hy
      exact ⟨sorted_headI_le hsort y hy', le_getLastD_of_sorted _ 0 hsort y hy'⟩
  · rfl

theorem year_extraction_min_max_witness :
    ((⟨"compare 2023 and 2019", "", none, none, ""⟩ : QueryInput).year_from = none) ∧
    2 ≤ (fourDigitRuns ("compare 2023 and 2019" : String).data).length ∧
    (∃ a b : Int,
      (⟨"compare 2023 and 2019", "", some 2019, some 2023, ""⟩ :
          QueryInput).year_from = some a ∧
      (⟨"compare 2023 and 2019", "", some 2019, some 2023, ""⟩ :
          QueryInput).year_to = some b ∧
      a ∈ ((fourDigitRuns ("compare 2023 and 2019" : String).data).map Int.ofNat) ∧
      b ∈ ((fourDigitRuns ("compare 2023 and 2019" : String).data).map Int.ofNat) ∧
      ∀ y ∈ ((fourDigitRuns ("compare 2023 and 2019" : String).data).map Int.ofNat),
        a ≤ y ∧ y ≤ b) :=
  ⟨rfl, by decide,
    year_extraction_min_max.1 ⟨"compare 2023 and 2019", "", none, none, ""⟩
      ⟨"compare 2023 and 2019", "", some 2019, some 2023, ""⟩ rfl rfl (by decide) rfl⟩

/-- Claim C3: an empty filtered row collection yields exactly the fixed "no data"
sentence, the chart structure `{labels: [], datasets: []}` and the empty
table, with no further computation on the rows. -/
theorem empty_input_fixed_outputs (df : DataFrame) (h : df.rows = []) :
    generateSummary df = "No data available for the specified filters." ∧
    prepareChartData df = { labels := [], datasets := [] } ∧
    prepareTableData df.rows = [] := by
  refine ⟨?_, ?_, ?_⟩
  · unfold generateSummary
    rw [if_pos h]
  · unfold prepareChartData
    rw [if_pos h]
  · rw [h]
    rfl

theorem empty_input_fixed_outputs_witness :
    (⟨CANONICAL_COLS, []⟩ : DataFrame).rows = [] ∧
    generateSummary ⟨CANONICAL_COLS, []⟩ =
      "No data available for the specified filters." ∧
    prepareChartData ⟨CANONICAL_COLS, []⟩ = { labels := [], datasets := [] } ∧
    prepareTableData (⟨CANONICAL_COLS, []⟩ : DataFrame).rows = [] :=
  ⟨rfl, empty_input_fixed_outputs ⟨CANONICAL_COLS, []⟩ rfl⟩

theorem dropWhile_head?_false {α : Type} (p : α → Bool) :
    ∀ (l : List α) (c : α), (l.dropWhile p).head? = some c → p c = false := by
  intro l
  induction l with
  | nil => intro c h; cases h
  | cons a t ih =>
    intro c h
    rw [List.dropWhile_cons] at h
    by_cases hp : p a = true
    · rw [if_pos hp] at h
      exact ih c h
    · rw [if_neg hp] at h
      simp only [List.head?_cons, Option.some.injEq] at h
      subst h
      exact eq_false_of_ne_true hp

theorem dropWhile_eq_self_of_head {α : Type} (p : α → Bool) (l : List α)
    (h : ∀ c, l.head? = some c → p c = false) : l.dropWhile p = l := by
  cases l with
  | nil => rfl
  | cons a t =>
    rw [List.dropWhile_cons, if_neg]
    simp [h a rfl]

theorem dropWhile_idem {α : Type} (p : α → Bool) (l : List α) :
    (l.dropWhile p).dropWhile p = l.dropWhile p :=
  dropWhile_eq_self_of_head p _ (dropWhile_head?_false p l)

theorem pyStrip_idem (l : List Char) :
    pyStripChars (pyStripChars l) = pyStripChars l := by
  unfold pyStripChars
  have h1 : (((l.dropWhile isPyWs).reverse.dropWhile isPyWs).reverse).dropWhile isPyWs =
      ((l.dropWhile isPyWs).reverse.dropWhile isPyWs).reverse := by
    apply dropWhile_eq_self_of_head
    intro c hc
    have hvne : ((l.dropWhile isPyWs).reverse.dropWhile isPyWs).reverse ≠ [] := by
      intro hn
      rw [hn] at hc
      cases hc
    have hpre : ((l.dropWhile isPyWs).reverse.dropWhile isPyWs).reverse <+:
        l.dropWhile isPyWs := by
      apply List.reverse_suffix.mp
      rw [List.reverse_reverse]
      exact List.dropWhile_suffix _
    obtain ⟨t, ht⟩ := hpre
    have hcu : (l.dropWhile isPyWs).head? = some c := by
      rw [← ht]
      cases hx : ((l.dropWhile isPyWs).reverse.dropWhile isPyWs).reverse with
      | nil => exact absurd hx hvne
      | cons a w =>
        rw [hx] at hc
        simp only [List.head?_cons, Option.some.injEq] at hc
        subst hc
        rfl
    exact dropWhile_head?_false isPyWs l c hcu
  rw [h1, List.reverse_reverse, dropWhile_idem]

theorem mem_pyStrip {l : List Char} {c : Char} (h : c ∈ pyStripChars l) : c ∈ l := by
  unfold pyStripChars at h
  have h1 := List.mem_reverse.mp h
  have h2 := (List.dropWhile_sublist (l := (l.dropWhile isPyWs).reverse)
    (p := isPyWs)).subset h1
  have h3 := List.mem_reverse.mp h2
  exact (List.dropWhile_sublist (l := l) (p := isPyWs)).subset h3

/-- Claim C9: numeric cleaning is idempotent on every value; `"₹1,200"` cleans to
the string `"1200"`, which coerces to the number 1200; `"NA"`
(case-insensitive) and `""` clean to missing, never an error. -/
theorem clean_numeric_idempotent_cases :
    (∀ v : PyVal, cleanNumericValue (cleanNumericValue v) = cleanNumericValue v) ∧
    cleanNumericValue (.str "₹1,200") = .str "1200" ∧
    toNumericVal (cleanNumericValue (.str "₹1,200")) = some 1200 ∧
    cleanNumericValue (.str "NA") = .nan ∧
    cleanNumericValue (.str "na") = .nan ∧
    cleanNumericValue (.str "") = .nan := by
  refine ⟨?_, rfl, rfl, rfl, rfl, rfl⟩
  intro v
  cases v with
  | num q => rfl
  | nan => rfl
  | str s =>
    by_cases hc : (pyStripChars (s.data.filter (fun c => c != ',' && c != '₹')) = [] ∨
        (pyStripChars (s.data.filter (fun c => c != ',' && c != '₹'))).map Char.toLower =
          "na".data)
    · have h1 : cleanNumericValue (.str s) = .nan := by
        unfold cleanNumericValue
        dsimp only
        rw [if_pos hc]
      rw [h1]
      rfl
    · have h1 : cleanNumericValue (.str s) =
          .str ⟨pyStripChars (s.data.filter (fun c => c != ',' && c != '₹'))⟩ := by
        unfold cleanNumericValue
        dsimp only
        rw [if_neg hc]
      rw [h1]
      have hfilter :
          (pyStripChars (s.data.filter (fun c => c != ',' && c != '₹'))).filter
            (fun c => c != ',' && c != '₹') =
          pyStripChars (s.data.filter (fun c => c != ',' && c != '₹')) := by
        apply List.filter_eq_self.mpr
        intro c hcmem
        have hmem : c ∈ s.data.filter (fun c => c != ',' && c != '₹') :=
          mem_pyStrip hcmem
        exact (List.mem_filter.mp hmem).2
      have h2 : cleanNumericValue
          (.str ⟨pyStripChars (s.data.filter (fun c => c != ',' && c != '₹'))⟩) =
          .str ⟨pyStripChars (s.data.filter (fun c => c != ',' && c != '₹'))⟩ := by
        unfold cleanNumericValue
        dsimp only
        rw [hfilter, pyStrip_idem, if_neg hc]
      exact h2

theorem char_eq_of_toNat_eq {a b : Char} (h : a.toNat = b.toNat) : a = b :=
  Char.eq_of_val_eq (UInt32.eq_of_val_eq (Fin.ext h))

theorem charsLt_trans : ∀ (a b c : List Char), charsLt a b = true →
    charsLt b c = true → charsLt a c = true := by
  intro a
  induction a with
  | nil =>
    intro b c h1 h2
    cases b with
    | nil => simp [charsLt] at h1
    | cons bb bs =>
      cases c with
      | nil => simp [charsLt] at h2
      | cons cc cs => simp [charsLt]
  | cons aa as ih =>
    intro b c h1 h2
    cases b with
    | nil => simp [charsLt] at h1
    | cons bb bs =>
      cases c with
      | nil => simp [charsLt] at h2
      | cons cc cs =>
        simp only [charsLt] at h1 h2 ⊢
        rcases Nat.lt_trichotomy aa.toNat bb.toNat with hab | hab | hab
        · rcases Nat.lt_trichotomy bb.toNat cc.toNat with hbc | hbc | hbc
          · rw [if_pos (by omega)]
          · rw [if_pos (by omega)]
          · rw [if_neg (by omega), if_pos hbc] at h2
            exact absurd h2 (by simp)
        · rcases Nat.lt_trichotomy bb.toNat cc.toNat with hbc | hbc | hbc
          · rw [if_pos (by omega)]
          · rw [if_neg (by omega), if_neg (by omega)] at h1 h2
            rw [if_neg (by omega), if_neg (by omega)]
            exact ih bs cs h1 h2
          · rw [if_neg (by omega), if_pos hbc] at h2
            exact absurd h2 (by simp)
        · rw [if_neg (by omega), if_pos hab] at h1
          exact absurd h1 (by simp)

theorem eq_of_not_charsLt : ∀ (a b : List Char), charsLt a b = false →
    charsLt b a = false → a = b := by
  intro a
  induction a with
  | nil =>
    intro b h1 _
    cases b with
    | nil => rfl
    | cons bb bs => simp [charsLt] at h1
  | cons aa as ih =>
    intro b h1 h2
    cases b with
    | nil => simp [charsLt] at h2
    | cons bb bs =>
      simp only [charsLt] at h1 h2
      rcases Nat.lt_trichotomy aa.toNat bb.toNat with h | h | h
      · rw [if_pos h] at h1
        exact absurd h1 (by simp)
      · rw [if_neg (by omega), if_neg (by omega)] at h1 h2
        rw [char_eq_of_toNat_eq h, ih bs h1 h2]
      · rw [if_pos h] at h2
        exact absurd h2 (by simp)

theorem strLtB_trans {a b c : String} (h1 : strLtB a b = true)
    (h2 : strLtB b c = true) : strLtB a c = true :=
  charsLt_trans _ _ _ h1 h2

theorem str_eq_of_not_lt {a b : String} (h1 : strLtB a b = false)
    (h2 : strLtB b a = false) : a = b := by
  have h := eq_of_not_charsLt a.data b.data h1 h2
  cases a
  cases b
  exact congrArg String.mk h

theorem keyLE_iff {a b : Row} : keyLE a b = true ↔
    (strLtB a.final_location b.final_location = true ∨
      (a.final_location = b.final_location ∧ a.year ≤ b.year)) := by
  unfold keyLE
  simp

theorem keyLT_iff {a b : Row} : keyLT a b = true ↔
    (strLtB a.final_location b.final_location = true ∨
      (a.final_location = b.final_location ∧ a.year < b.year)) := by
  unfold keyLT
  simp

theorem keyLT_of_not_keyLE {a b : Row} (h : ¬ keyLE a b = true) : keyLT b a = true := by
  rw [keyLE_iff] at h
  push_neg at h
  obtain ⟨h1, h2⟩ := h
  rw [keyLT_iff]
  by_cases hba : strLtB b.final_location a.final_location = true
  · exact Or.inl hba
  · have heq : b.final_location = a.final_location :=
      str_eq_of_not_lt (eq_false_of_ne_true hba) (eq_false_of_ne_true h1)
    have hy := h2 heq.symm
    exact Or.inr ⟨heq, by omega⟩

theorem keyLE_trans {a b c : Row} (h1 : keyLE a b = true) (h2 : keyLE b c = true) :
    keyLE a c = true := by
  rw [keyLE_iff] at h1 h2 ⊢
  rcases h1 with h1 | ⟨h1e, h1y⟩ <;> rcases h2 with h2 | ⟨h2e, h2y⟩
  · exact Or.inl (strLtB_trans h1 h2)
  · exact Or.inl (by rw [← h2e]; exact h1)
  · exact Or.inl (by rw [h1e]; exact h2)
  · exact Or.inr ⟨h1e.trans h2e, le_trans h1y h2y⟩

theorem keyLE_of_stableBefore {x y : Nat × Row} (h : stableBefore x y) :
    keyLE x.2 y.2 = true := by
  rcases h with h | ⟨he, hy, _⟩
  · rw [keyLT_iff] at h
    rw [keyLE_iff]
    rcases h with h | ⟨he, hy⟩
    · exact Or.inl h
    · exact Or.inr ⟨he, le_of_lt hy⟩
  · rw [keyLE_iff]
    exact Or.inr ⟨he, le_of_eq hy⟩

theorem stableBefore_of_keyLE_idx {x y : Nat × Row} (h : keyLE x.2 y.2 = true)
    (hidx : x.1 < y.1) : stableBefore x y := by
  rw [keyLE_iff] at h
  rcases h with h | ⟨he, hy⟩
  · exact Or.inl (keyLT_iff.mpr (Or.inl h))
  · rcases lt_or_eq_of_le hy with hlt | heq
    · exact Or.inl (keyLT_iff.mpr (Or.inr ⟨he, hlt⟩))
    · exact Or.inr ⟨he, heq, hidx⟩

theorem pairwise_stable_orderedInsert (x : Nat × Row) :
    ∀ s : List (Nat × Row), s.Pairwise stableBefore → (∀ y ∈ s, x.1 < y.1) →
      (List.orderedInsert taggedLE x s).Pairwise stableBefore := by
  intro s
  induction s with
  | nil =>
    intro _ _
    simp [List.orderedInsert]
  | cons b t ih =>
    intro hp hidx
    rw [List.orderedInsert]
    have hpc := List.pairwise_cons.mp hp
    by_cases h : taggedLE x b
    · rw [if_pos h]
      refine List.pairwise_cons.mpr ⟨?_, hp⟩
      intro z hz
      rcases List.mem_cons.mp hz with rfl | hzt
      · exact stableBefore_of_keyLE_idx h (hidx z (by simp))
      · exact stableBefore_of_keyLE_idx
          (keyLE_trans h (keyLE_of_stableBefore (hpc.1 z hzt)))
          (hidx z (by simp [hzt]))
    · rw [if_neg h]
      refine List.pairwise_cons.mpr
        ⟨?_, ih hpc.2 (fun y hy => hidx y (by simp [hy]))⟩
      intro z hz
      have hz' : z = x ∨ z ∈ t := by
        have hmem := (List.perm_orderedInsert taggedLE x t).mem_iff.mp hz
        simpa using hmem
      rcases hz' with rfl | hzt
      · exact Or.inl (keyLT_of_not_keyLE h)
      · exact hpc.1 z hzt

theorem le_fst_of_mem_enumFrom {n : Nat} {l : List Row} :
    ∀ x ∈ List.enumFrom n l, n ≤ x.1 := by
  induction l generalizing n with
  | nil => intro x hx; cases hx
  | cons a t ih =>
    intro x hx
    rcases List.mem_cons.mp hx with rfl | hxt
    · exact le_refl n
    · exact le_trans (Nat.le_succ n) (ih x hxt)

theorem pairwise_fst_lt_enumFrom (n : Nat) (l : List Row) :
    (List.enumFrom n l).Pairwise (fun a b : Nat × Row => a.1 < b.1) := by
  induction l generalizing n with
  | nil => simp
  | cons a t ih =>
    refine List.pairwise_cons.mpr ⟨?_, ih (n + 1)⟩
    intro y hy
    exact lt_of_lt_of_le (Nat.lt_succ_self n) (le_fst_of_mem_enumFrom y hy)

theorem pairwise_stable_insertionSort :
    ∀ l : List (Nat × Row), l.Pairwise (fun a b => a.1 < b.1) →
      (List.insertionSort taggedLE l).Pairwise stableBefore := by
  intro l
  induction l with
  | nil => intro _; simp
  | cons x t ih =>
    intro hp
    rw [List.insertionSort]
    have hpc := List.pairwise_cons.mp hp
    apply pairwise_stable_orderedInsert
    · exact ih hpc.2
    · intro y hy
      exact hpc.1 y ((List.perm_insertionSort taggedLE t).mem_iff.mp hy)

/-- Claim C7: the dataset surviving normalization (in both loader paths: the rows
kept by the drop step, sorted by `sort_values(['final_location', 'year'])`) is
a permutation of the kept rows in which any two entries are ordered by a
strictly smaller key, or by equal `(final_location, year)` keys and smaller
original position — i.e. the sort is non-decreasing in the key and stable —
and hence the output row list is sorted by `keyLE`. -/
theorem normalization_sorted_stable :
    (∀ l : List PreRow,
      List.Perm (sortTagged (dropMissing l)) (dropMissing l).enum ∧
      (sortTagged (dropMissing l)).Pairwise stableBefore ∧
      dropSort l = (sortTagged (dropMissing l)).map Prod.snd ∧
      (dropSort l).Pairwise (fun a b => keyLE a b = true)) ∧
    (∀ raw : List RawRow,
      normalizeExternal raw = (raw.mapM coerceRowExternal).map dropSort ∧
      normalizeDb raw = (raw.mapM coerceRowDb).map dropSort) := by
  constructor
  · intro l
    have hperm := List.perm_insertionSort taggedLE (dropMissing l).enum
    have hpw : (sortTagged (dropMissing l)).Pairwise stableBefore := by
      apply pairwise_stable_insertionSort
      exact pairwise_fst_lt_enumFrom 0 (dropMissing l)
    refine ⟨hperm, hpw, rfl, ?_⟩
    show ((sortTagged (dropMissing l)).map Prod.snd).Pairwise
      (fun a b => keyLE a b = true)
    exact hpw.map _ (fun a b hab => keyLE_of_stableBefore hab)
  · intro raw
    exact ⟨rfl, rfl⟩

theorem idxmaxAux_spec : ∀ (t : List (String × ℚ)) (best : String) (bq : ℚ),
    ∃ pre c q post,
      (best, bq) :: t = pre ++ (c, q) :: post ∧
      (∀ p ∈ pre, p.2 < q) ∧ (∀ p ∈ post, p.2 ≤ q) ∧
      idxmaxAux best bq t = c := by
  intro t
  induction t with
  | nil =>
    intro best bq
    exact ⟨[], best, bq, [], rfl, by simp, by simp, rfl⟩
  | cons hd t ih =>
    intro best bq
    obtain ⟨c1, q1⟩ := hd
    by_cases h : q1 > bq
    · obtain ⟨pre, c, q, post, heq, hpre, hpost, hrun⟩ := ih c1 q1
      have hq1 : q1 ≤ q := by
        have hmem : (c1, q1) ∈ pre ++ (c, q) :: post := by
          rw [← heq]
          exact List.mem_cons_self _ _
        rcases List.mem_append.mp hmem with hm | hm
        · exact le_of_lt (hpre _ hm)
        · rcases List.mem_cons.mp hm with hm | hm
          · rw [Prod.mk.injEq] at hm
            exact le_of_eq hm.2
          · exact hpost _ hm
      refine ⟨(best, bq) :: pre, c, q, post, ?_, ?_, hpost, ?_⟩
      · rw [List.cons_append, ← heq]
      · intro p hp
        rcases List.mem_cons.mp hp with rfl | hp
        · exact lt_of_lt_of_le h hq1
        · exact hpre p hp
      · show idxmaxAux best bq ((c1, q1) :: t) = c
        unfold idxmaxAux
        rw [if_pos h]
        exact hrun
    · obtain ⟨pre, c, q, post, heq, hpre, hpost, hrun⟩ := ih best bq
      cases pre with
      | nil =>
        simp only [List.nil_append, List.cons.injEq, Prod.mk.injEq] at heq
        obtain ⟨⟨hbc, hbq⟩, hts⟩ := heq
        refine ⟨[], c, q, (c1, q1) :: post, ?_, by simp, ?_, ?_⟩
        · rw [List.nil_append, ← hts, hbc, hbq]
        · intro p hp
          rcases List.mem_cons.mp hp with rfl | hp
          · rw [← hbq]
            exact not_lt.mp h
          · exact hpost p hp
        · show idxmaxAux best bq ((c1, q1) :: t) = c
          unfold idxmaxAux
          rw [if_neg h]
          exact hrun
      | cons p0 pre' =>
        simp only [List.cons_append, List.cons.injEq] at heq
        obtain ⟨hp0, hts⟩ := heq
        refine ⟨(best, bq) :: (c1, q1) :: pre', c, q, post, ?_, ?_, hpost, ?_⟩
        · rw [List.cons_append, List.cons_append, ← hts]
        · have hbq : bq < q := by
            have := hpre p0 (List.mem_cons_self _ _)
            rw [← hp0] at this
            exact this
          intro p hp
          rcases List.mem_cons.mp hp with rfl | hp
          · exact hbq
          · rcases List.mem_cons.mp hp with rfl | hp
            · exact lt_of_le_of_lt (not_lt.mp h) hbq
            · exact hpre p (List.mem_cons_of_mem _ hp)
        · show idxmaxAux best bq ((c1, q1) :: t) = c
          unfold idxmaxAux
          rw [if_neg h]
          exact hrun

/-- Counterexample to claim C10: on a canonical one-row dataframe with 10 total units
sold of which 5 are flats, the aggregate `total_sold` column (whose name also
ends in `_sold`) wins the argmax, so the code reports "Most active segment:
Total" while the spec's per-category argmax yields "Flat". -/
theorem most_active_segment_uses_total_sold :
    segmentDf.rows ≠ [] ∧
    topPropertyOf segmentDf = "Total" ∧
    specTopPropertyOf segmentDf = "Flat" ∧
    topPropertyOf segmentDf ≠ specTopPropertyOf segmentDf := by
  have hsums : propertySums segmentDf =
      [("total_sold", (10 : ℚ) + 0), ("flat_sold", (5 : ℚ) + 0),
       ("office_sold", (0 : ℚ) + 0), ("others_sold", (0 : ℚ) + 0),
       ("shop_sold", (0 : ℚ) + 0), ("commercial_sold", (0 : ℚ) + 0),
       ("other_sold", (0 : ℚ) + 0), ("residential_sold", (0 : ℚ) + 0)] := rfl
  have htop : topPropertyOf segmentDf = "Total" := by
    unfold topPropertyOf
    rw [hsums, if_neg (by simp)]
    show formatSegment (idxmaxAux "total_sold" ((10 : ℚ) + 0)
      [("flat_sold", (5 : ℚ) + 0), ("office_sold", (0 : ℚ) + 0),
       ("others_sold", (0 : ℚ) + 0), ("shop_sold", (0 : ℚ) + 0),
       ("commercial_sold", (0 : ℚ) + 0), ("other_sold", (0 : ℚ) + 0),
       ("residential_sold", (0 : ℚ) + 0)]) = "Total"
    have hrun : idxmaxAux "total_sold" ((10 : ℚ) + 0)
        [("flat_sold", (5 : ℚ) + 0), ("office_sold", (0 : ℚ) + 0),
         ("others_sold", (0 : ℚ) + 0), ("shop_sold", (0 : ℚ) + 0),
         ("commercial_sold", (0 : ℚ) + 0), ("other_sold", (0 : ℚ) + 0),
         ("residential_sold", (0 : ℚ) + 0)] = "total_sold" := by
      norm_num [idxmaxAux]
    rw [hrun]
    rfl
  have hspec : specTopPropertyOf segmentDf = "Flat" := by
    unfold specTopPropertyOf
    dsimp only
    rw [if_neg (by decide)]
    show formatSegment (idxmaxAux "flat_sold" ((5 : ℚ) + 0)
      [("office_sold", (0 : ℚ) + 0), ("shop_sold", (0 : ℚ) + 0),
       ("others_sold", (0 : ℚ) + 0), ("commercial_sold", (0 : ℚ) + 0),
       ("residential_sold", (0 : ℚ) + 0)]) = "Flat"
    have hrun : idxmaxAux "flat_sold" ((5 : ℚ) + 0)
        [("office_sold", (0 : ℚ) + 0), ("shop_sold", (0 : ℚ) + 0),
         ("others_sold", (0 : ℚ) + 0), ("commercial_sold", (0 : ℚ) + 0),
         ("residential_sold", (0 : ℚ) + 0)] = "flat_sold" := by
      norm_num [idxmaxAux]
    rw [hrun]
    rfl
  refine ⟨by simp [segmentDf], htop, hspec, ?_⟩
  rw [htop, hspec]
  decide

/-- Claim C10 as amended: for every dataframe with at least one `*_sold` column, the
"Most active segment" label is derived (strip `_sold`, space underscores,
title-case) from the first column attaining the maximum column sum among ALL
columns whose name ends in `_sold` — including aggregate columns such as
`total_sold`, not only per-category ones — and the units-sold figure is the
sum of all those column sums. -/
theorem most_active_segment_amended :
    ∀ df : DataFrame, propertySums df ≠ [] →
      ∃ pre c q post,
        propertySums df = pre ++ (c, q) :: post ∧
        (∀ p ∈ pre, p.2 < q) ∧ (∀ p ∈ post, p.2 ≤ q) ∧
        topPropertyOf df = formatSegment c ∧
        unitsSoldOf df = ((soldColumns df.cols).map (colSum df.rows)).sum := by
  intro df hne
  cases hps : propertySums df with
  | nil => exact absurd hps hne
  | cons hd tl =>
    obtain ⟨c1, q1⟩ := hd
    obtain ⟨pre, c, q, post, heq, hpre, hpost, hrun⟩ := idxmaxAux_spec tl c1 q1
    refine ⟨pre, c, q, post, heq, hpre, hpost, ?_, ?_⟩
    · unfold topPropertyOf
      rw [hps, if_neg (by simp)]
      show formatSegment (idxmaxAux c1 q1 tl) = _
      rw [hrun]
    · unfold unitsSoldOf propertySums
      rw [List.map_map]
      rfl

theorem most_active_segment_amended_witness :
    propertySums segmentDf ≠ [] ∧
    (∃ pre c q post,
      propertySums segmentDf = pre ++ (c, q) :: post ∧
      (∀ p ∈ pre, p.2 < q) ∧ (∀ p ∈ post, p.2 ≤ q) ∧
      topPropertyOf segmentDf = formatSegment c ∧
      unitsSoldOf segmentDf =
        ((soldColumns segmentDf.cols).map (colSum segmentDf.rows)).sum) :=
  ⟨by decide, most_active_segment_amended segmentDf (by decide)⟩

end RealEstate
